import Mathlib

/-!
Verification of the PPO optimizer of `src/policy_optimization.py`
(class `PPOptimizer`) against its natural-language specification.

The embedding is a shallow one over an arbitrary `LinearOrderedField α`
(instantiated at `ℚ` for concrete evaluations and at `ℝ` where square
roots / real powers are needed).  Tensors become lists of scalars,
per-step vectors (the "tom"/skill values) become lists of lists, and an
agent's parameters are an abstract type `P`:

* a fresh forward pass `agent.evaluate_actions(...)` becomes an abstract
  function `evalFn : P → EvalOut α` (the data batch is fixed for the
  duration of one `train_on_data` call, so the outputs depend only on
  the current parameters);
* the gradient update block (`optimizer.zero_grad(); loss.backward();
  clip_grad_norm_; optimizer.step()`) becomes an abstract parameter
  update `optStep : P → P` — for a fixed batch the new parameters are a
  function of the old ones;
* `torch.exp`, `torch.sqrt` and the float power `0.1 ** x` are passed in
  as function parameters (`expFn`, `sqrtFn`, `powFn`) so that the
  definitions stay polymorphic and executable.

Helper functions that live in `utils.py` / `preprocessors.py` — files
not part of the provided sources — are modelled from the spec and say so
in their doc comments.
-/

namespace PPOpt

/-- Modelled from the spec (`utils.masked_mean` is not among the provided
source files): "masked_mean computes the mean only over positions where
the mask is true (weighted sum divided by mask sum, never by raw element
count)". -/
def masked_mean {α : Type} [Field α] (xs mask : List α) : α :=
  (List.zipWith (· * ·) xs mask).sum / mask.sum

/-- Modelled from the spec (`utils.discount_rewards_to_go` is not among
the provided source files): "for each time step t within an episode,
`G_t = r_t + gamma * G_{t+1}`, reset at episode boundaries (done-flag
true)".  Unpadded mode: the batch is a flat concatenation of episodes. -/
def discount_rewards_to_go {α : Type} [Field α] (gamma : α) :
    List (α × Bool) → List α
  | [] => []
  | (r, d) :: rest =>
      let tl := discount_rewards_to_go gamma rest
      (r + (if d then 0 else gamma * tl.headD 0)) :: tl

/-- Output of one forward pass `agent.evaluate_actions(agent_batch, padded=...)`:
log-probabilities, value estimates, entropies and (4-tuple form) the
skill-model prediction, one entry per time step. -/
structure EvalOut (α : Type) where
  logprobs : List α
  values : List α
  entropy : List α
  sm : List (List α)

/-- One agent's transposed data batch (`data_batch[agent_id]`), restricted
to the fields `train_on_data` reads. -/
structure AgentDataBatch (α : Type) where
  rewards : List α
  logprobs : List α
  dones : List Bool
  toms : List (List α)

/-- The hyperparameters `train_on_data` reads (after merging with
`default_config` in `__init__`). -/
structure PPOConfig (α : Type) where
  ppo_steps : ℕ
  eps : α
  target_kl : α
  value_loss_coeff : α
  entropy_coeff : α
  entropy_decay_time : α
  min_entropy : α
  gamma : α
  use_sm : Bool
  sm_coeff : α
  pad_sequences : Bool

/-- Lines 90–93: `entropy_coeff = max(entropy_coeff * 0.1**(step/entropy_decay_time),
min_entropy)`, computed once per `train_on_data` call.  `powFn b e`
stands for the float power `b ** e`. -/
def entropy_coeff_of {α : Type} [Field α] [Max α] (powFn : α → α → α)
    (base decay_time min_e step : α) : α :=
  max (base * powFn (1 / 10) (step / decay_time)) min_e

/-- Lines 106–111: with `pad_sequences` false the mask is
`torch.ones_like(agent_batch['rewards'])`; with it true the mask comes
from `simple_padder` (external to the provided sources), here an
explicit argument `paddedMask`. -/
def maskFor {α : Type} [Field α] (pad : Bool) (paddedMask : List α)
    (rewards : List α) : List α :=
  if pad then paddedMask else List.replicate rewards.length 1

/-- Line 139: `advantages_batch = (discounted_batch - value_batch).detach()`.
`.detach()` is the identity on values. -/
def advRaw {α : Type} [Field α] (discounted values : List α) : List α :=
  List.zipWith (· - ·) discounted values

/-- Line 140: mean-centering, `advantages_batch - masked_mean(advantages_batch, mask)`. -/
def advCentered {α : Type} [Field α] (discounted values mask : List α) : List α :=
  (advRaw discounted values).map (· - masked_mean (advRaw discounted values) mask)

/-- Line 141: `advantages_batch / (torch.sqrt(masked_mean(advantages_batch ** 2, mask)) + 1e-8)`,
with `torch.sqrt` passed in as `sqrtFn`. -/
def advNormalized {α : Type} [Field α] (sqrtFn : α → α)
    (discounted values mask : List α) : List α :=
  (advCentered discounted values mask).map
    (· / (sqrtFn (masked_mean ((advCentered discounted values mask).map (· ^ 2)) mask)
          + 1 / 10 ^ 8))

/-- Lines 170–172: the one-sided clipped term
`torch.where(advantages_batch > 0, (1+eps)*advantages_batch, (1-eps)*advantages_batch)`,
element-wise. -/
def surr2_onesided {α : Type} [LinearOrderedField α] (eps a : α) : α :=
  if 0 < a then (1 + eps) * a else (1 - eps) * a

/-- `torch.clamp(x, lo, hi)`. -/
def clamp {α : Type} [LinearOrder α] (x lo hi : α) : α :=
  max lo (min x hi)

/-- Line 174 restricted to one element: `-(torch.min(surr1, surr2))` with
the one-sided `surr2` the code uses, at probability ratio `r` and
advantage `a`. -/
def policy_loss_onesided {α : Type} [LinearOrderedField α] (eps r a : α) : α :=
  -(min (r * a) (surr2_onesided eps a))

/-- The symmetric form from the spec (and the commented-out line 169):
clip the ratio into `[1-eps, 1+eps]` before multiplying by the
advantage, then negate the minimum with the unclipped term. -/
def policy_loss_symmetric {α : Type} [LinearOrderedField α] (eps r a : α) : α :=
  -(min (r * a) (clamp r (1 - eps) (1 + eps) * a))

/-- The data the update loop of `train_on_data` closes over for one
agent: the forward pass as a function of the parameters, the abstract
gradient update, and the batch-derived tensors computed before the loop
(lines 106–152). -/
structure IterEnv (P : Type) (α : Type) where
  evalFn : P → EvalOut α
  optStep : P → P
  expFn : α → α
  old_logprobs : List α
  mask : List α
  advantages : List α
  discounted : List α
  toms : List (List α)
  entropy_coeff : α

/-- Line 161: `kl_divergence = masked_mean(old_logprobs_batch - logprob_batch, mask).item()`
at parameters `p`. -/
def klEstimate {P α : Type} [Field α] (env : IterEnv P α) (p : P) : α :=
  masked_mean (List.zipWith (· - ·) env.old_logprobs (env.evalFn p).logprobs) env.mask

/-- The mutable loop variables of the update loop (lines 144–149 set the
initial values; only the ones the claims mention are kept). -/
structure LoopState (P : Type) (α : Type) where
  params : P
  ppo_step : ℤ
  kl : α
  loss : α

/-- Lines 165–184: the total loss of one PPO iteration from the fresh
forward-pass output `out`.  `prob_ratio = exp(logprob - old_logprob)`
(via `expFn`); `surr1 = ratio * advantage`; `surr2` one-sided clipped;
`policy_loss = -min(surr1, surr2)`; `value_loss = (value - return)^2`;
the skill-modeling term `sum((sm - tom)^2, dim=-1)` is added when
`use_sm` is set. -/
def iterLoss {P α : Type} [LinearOrderedField α] (cfg : PPOConfig α)
    (env : IterEnv P α) (out : EvalOut α) : α :=
  let prob_ratio := List.zipWith (fun n o => env.expFn (n - o)) out.logprobs env.old_logprobs
  let surr1 := List.zipWith (· * ·) prob_ratio env.advantages
  let surr2 := env.advantages.map (surr2_onesided cfg.eps)
  let policy_loss := List.zipWith (fun s1 s2 => -(min s1 s2)) surr1 surr2
  let value_loss := List.zipWith (fun v d => (v - d) ^ 2) out.values env.discounted
  let base := masked_mean policy_loss env.mask
      + cfg.value_loss_coeff * masked_mean value_loss env.mask
      - env.entropy_coeff * masked_mean out.entropy env.mask
  if cfg.use_sm then
    base + cfg.sm_coeff *
      masked_mean
        (List.zipWith (fun s t => ((List.zipWith (· - ·) s t).map (· ^ 2)).sum) out.sm env.toms)
        env.mask
  else base

/-- One pass through the loop body at iteration index `i` (lines
154–191).  Returns the state after the body together with `true` when
the loop continues and `false` when the KL check broke out of it.  On a
break the body has already assigned `ppo_step := i` (the `for` target)
and the fresh `kl_divergence`, but has neither computed a loss nor
stepped the optimizer. -/
def ppoIterBody {P α : Type} [LinearOrderedField α] (cfg : PPOConfig α)
    (env : IterEnv P α) (i : ℕ) (s : LoopState P α) : LoopState P α × Bool :=
  let out := env.evalFn s.params
  let kl := klEstimate env s.params
  if cfg.target_kl < kl then
    ({ s with ppo_step := i, kl := kl }, false)
  else
    ({ params := env.optStep s.params, ppo_step := i, kl := kl,
       loss := iterLoss cfg env out }, true)

/-- `for ppo_step in range(...)` with `fuel` iterations left and `i` the
next iteration index. -/
def ppoRun {P α : Type} [LinearOrderedField α] (cfg : PPOConfig α)
    (env : IterEnv P α) : ℕ → ℕ → LoopState P α → LoopState P α
  | _, 0, s => s
  | i, fuel + 1, s =>
      match ppoIterBody cfg env i s with
      | (s', false) => s'
      | (s', true) => ppoRun cfg env (i + 1) fuel s'

/-- Lines 144–149 and 154: run the whole update loop from the initial
loop variables (`ppo_step = -1`, zero losses) for `ppo_steps` iterations. -/
def trainLoop {P α : Type} [LinearOrderedField α] (cfg : PPOConfig α)
    (env : IterEnv P α) (p0 : P) : LoopState P α :=
  ppoRun cfg env 0 cfg.ppo_steps { params := p0, ppo_step := -1, kl := 0, loss := 0 }

/-- Line 200: the reported metric `"{agent_id}/ppo_steps_made" = ppo_step + 1`. -/
def ppo_steps_made {P α : Type} (s : LoopState P α) : ℤ :=
  s.ppo_step + 1

/-- Lines 95–152 for one agent with `use_gpu = False`: build the loop
environment from the batch.  `paddedMask` is what `simple_padder` would
return in padded mode (that helper is external to the provided
sources); `value_batch` for the advantage comes from the pre-loop
forward pass at the initial parameters (line 124). -/
def mkEnv {P α : Type} [LinearOrderedField α] (cfg : PPOConfig α)
    (sqrtFn expFn : α → α) (evalA : P → AgentDataBatch α → EvalOut α)
    (optStep : P → P) (paddedMask : List α) (entropy_coeff : α)
    (p0 : P) (batch : AgentDataBatch α) : IterEnv P α :=
  let mask := maskFor cfg.pad_sequences paddedMask batch.rewards
  let discounted := discount_rewards_to_go cfg.gamma (batch.rewards.zip batch.dones)
  { evalFn := fun p => evalA p batch
    optStep := optStep
    expFn := expFn
    old_logprobs := batch.logprobs
    mask := mask
    advantages := advNormalized sqrtFn discounted (evalA p0 batch).values mask
    discounted := discounted
    toms := batch.toms
    entropy_coeff := entropy_coeff }

/-- One agent's slice of `train_on_data` (value semantics of lines
90–191): compute the entropy coefficient once from the global `step`,
prepare the batch, and run the update loop. -/
def train_on_data_agent {P α : Type} [LinearOrderedField α] (cfg : PPOConfig α)
    (powFn : α → α → α) (sqrtFn expFn : α → α)
    (evalA : P → AgentDataBatch α → EvalOut α) (optStep : P → P)
    (paddedMask : List α) (p0 : P) (batch : AgentDataBatch α) (step : α) :
    LoopState P α :=
  let ec := entropy_coeff_of powFn cfg.entropy_coeff cfg.entropy_decay_time
      cfg.min_entropy step
  trainLoop cfg (mkEnv cfg sqrtFn expFn evalA optStep paddedMask ec p0 batch) p0

/-! ### The configuration dictionary (lines 29–60) -/

/-- A Python value as it appears in the `default_config` dictionary. -/
inductive ConfigVal : Type
  | num (q : ℚ)
  | str (s : String)
  | boolean (b : Bool)
  | pair (a b : ℚ)
  | dict (entries : List (String × ConfigVal))
  | none

/-- Lines 32–38: the `optimizer_kwargs` sub-dictionary. -/
def optimizer_kwargs_default : List (String × ConfigVal) :=
  [("lr", .num (1 / 10 ^ 3)),
   ("betas", .pair (9 / 10) (999 / 1000)),
   ("eps", .num (1 / 10 ^ 7)),
   ("weight_decay", .num 0),
   ("amsgrad", .boolean false)]

/-- Lines 29–59: the `default_config` dictionary of `PPOptimizer.__init__`,
key for key. -/
def default_config : List (String × ConfigVal) :=
  [("optimizer", .str "adam"),
   ("optimizer_kwargs", .dict optimizer_kwargs_default),
   ("separate_optimizers", .boolean false),
   ("gamma", .num (95 / 100)),
   ("ppo_steps", .num 25),
   ("eps", .num (1 / 10)),
   ("target_kl", .num (1 / 100)),
   ("value_loss_coeff", .num (1 / 10)),
   ("entropy_coeff", .num (1 / 10)),
   ("entropy_decay_time", .num 100),
   ("min_entropy", .num (1 / 10 ^ 4)),
   ("max_grad_norm", .num (1 / 2)),
   ("pad_sequences", .boolean false),
   ("use_gpu", .boolean false)]

/-- Dictionary lookup `d[k]`: `some v` when the key is present, `none`
when the subscript would raise `KeyError`. -/
def dictLookup (d : List (String × ConfigVal)) (k : String) : Option ConfigVal :=
  (d.find? (fun e => e.1 = k)).map (·.2)

/-- Modelled from the spec (`utils.with_default_config` is not among the
provided source files): "the reference behavior merges over documented
defaults without validation" — a key resolves to the user's value when
supplied and to the default otherwise. -/
def with_default_config (user defaults : List (String × ConfigVal)) (k : String) :
    Option ConfigVal :=
  (dictLookup user k).orElse (fun _ => dictLookup defaults k)

/-- The config keys `train_on_data` subscripts with `self.config[...]` or
`self.config.get(...)` (lines 91–200): `entropy_coeff`,
`entropy_decay_time`, `min_entropy` (line 91–92), `use_gpu` (102),
`pad_sequences` (106), `ppo_steps` (154), `target_kl` (162),
`value_loss_coeff` (178), `use_sm` (182), `sm_coeff` (184),
`max_grad_norm` (189). -/
def train_on_data_keys_read : List String :=
  ["entropy_coeff", "entropy_decay_time", "min_entropy", "use_gpu",
   "pad_sequences", "ppo_steps", "target_kl", "value_loss_coeff",
   "use_sm", "sm_coeff", "max_grad_norm"]

/-! ### Call arity of `agent.evaluate_actions` (lines 124 and 156) -/

/-- Python tuple unpacking `a, b, ... = t` into `expected` names from a
tuple of `actual` components: raises (here `Except.error`) unless the
arities agree. -/
def unpackTuple (expected actual : ℕ) : Except String Unit :=
  if actual = expected then .ok () else .error "tuple unpacking arity mismatch"

/-- The two `evaluate_actions` call sites of `train_on_data` for an agent
whose `evaluate_actions` always returns a tuple of `arity` components:
line 124 unpacks it into three names before the loop; line 156 unpacks
it into four names inside the loop, reached whenever `ppo_steps >= 1`. -/
def evaluate_actions_call_sites (arity ppo_steps : ℕ) : Except String Unit := do
  unpackTuple 3 arity
  if 1 ≤ ppo_steps then unpackTuple 4 arity else pure ()

/-- `true` exactly when the computation raised. -/
def isError {ε σ : Type} : Except ε σ → Bool
  | .error _ => true
  | .ok _ => false

/-! ### Concrete instantiation used for evaluations and witnesses -/

/-- The merged config an empty user config produces, as a `PPOConfig ℚ`
(values of `default_config`); the two keys missing from
`default_config`, `use_sm` and `sm_coeff`, are given the values `false`
and `0` here so that the skill-modeling branch is off. -/
def cfgQ : PPOConfig ℚ :=
  { ppo_steps := 25, eps := 1 / 10, target_kl := 1 / 100,
    value_loss_coeff := 1 / 10, entropy_coeff := 1 / 10,
    entropy_decay_time := 100, min_entropy := 1 / 10 ^ 4, gamma := 95 / 100,
    use_sm := false, sm_coeff := 0, pad_sequences := false }

/-- A synthetic one-step batch: reward 1, stored log-probability 1, the
single step ends its episode, skill ground truth `[0]`. -/
def batchQ : AgentDataBatch ℚ :=
  ⟨[1], [1], [true], [[0]]⟩

/-- A synthetic agent (parameters in `ℚ`) whose forward pass always
returns log-probability 0, value 0, entropy 0 and skill prediction
`[0]`: against `batchQ` its KL estimate is `1 - 0 = 1 > target_kl`. -/
def evalQ : ℚ → AgentDataBatch ℚ → EvalOut ℚ :=
  fun _ _ => ⟨[0], [0], [0], [[0]]⟩

/-- Stand-in over `ℚ` for the float power `0.1 ** x` (its value is
irrelevant to the step count and parameter claims). -/
def powQ : ℚ → ℚ → ℚ := fun _ _ => 1

/-- Stand-in over `ℚ` for `torch.sqrt` (its value is irrelevant to the
step count and parameter claims). -/
def sqrtQ : ℚ → ℚ := fun _ => 0

/-- Stand-in over `ℚ` for `torch.exp`. -/
def expQ : ℚ → ℚ := fun _ => 1

/-- The loop environment `train_on_data` builds for `evalQ` on `batchQ`
at initial parameters `0` (entropy coefficient `1/10`, matching
`entropy_coeff_of powQ (1/10) 100 (1/10^4) 0`). -/
def envQ : IterEnv ℚ ℚ :=
  mkEnv cfgQ sqrtQ expQ evalQ id [] (1 / 10) 0 batchQ

/-- A synthetic one-step batch whose stored log-probability matches what
`evalQ` returns, so the KL estimate is `0` and never trips the early
stop. -/
def batchQ0 : AgentDataBatch ℚ :=
  ⟨[1], [0], [true], [[0]]⟩

/-- The loop environment for `evalQ` on `batchQ0`. -/
def envQ0 : IterEnv ℚ ℚ :=
  mkEnv cfgQ sqrtQ expQ evalQ id [] (1 / 10) 0 batchQ0

/-- Spec-side definition, following §4.5 item 4 of the spec: the value
loss is the element-wise squared error between the new value estimate
and the discounted return target. -/
def spec_value_loss {α : Type} [Field α] (values discounted : List α) : List α :=
  List.zipWith (fun v d => (v - d) ^ 2) values discounted

/-- Spec-side definition, following §4.5 item 5 of the spec: the skill
modeling loss is the squared error between skill prediction and the
ground-truth skill value, summed over the skill-vector's components. -/
def spec_sm_loss {α : Type} [Field α] (sm toms : List (List α)) : List α :=
  List.zipWith (fun s t => ((List.zipWith (· - ·) s t).map (· ^ 2)).sum) sm toms

/-! ### Loop lemmas -/

/-- When the KL check fails at the current parameters and at least one
iteration remains, the loop exits at once, only recording the iteration
index and the KL estimate. -/
theorem ppoRun_break {P α : Type} [LinearOrderedField α] (cfg : PPOConfig α)
    (env : IterEnv P α) (i fuel : ℕ) (s : LoopState P α)
    (hf : 0 < fuel) (h : cfg.target_kl < klEstimate env s.params) :
    ppoRun cfg env i fuel s = { s with ppo_step := i, kl := klEstimate env s.params } := by
  cases fuel with
  | zero => exact absurd hf (lt_irrefl 0)
  | succ f =>
    rw [ppoRun, ppoIterBody]
    simp only [if_pos h]

/-- When the KL check never fires, every iteration goes through the
optimizer-step branch: after `fuel` iterations starting at index `i`,
the parameters have been stepped `fuel` times and `ppo_step` holds the
last index entered. -/
theorem ppoRun_no_break {P α : Type} [LinearOrderedField α] (cfg : PPOConfig α)
    (env : IterEnv P α) (h : ∀ p, ¬ cfg.target_kl < klEstimate env p) :
    ∀ (fuel i : ℕ) (s : LoopState P α),
      (ppoRun cfg env i fuel s).params = env.optStep^[fuel] s.params ∧
      (ppoRun cfg env i fuel s).ppo_step =
        (if fuel = 0 then s.ppo_step else (i : ℤ) + fuel - 1) := by
  intro fuel
  induction fuel with
  | zero => intro i s; simp [ppoRun]
  | succ f ih =>
    intro i s
    rw [ppoRun, ppoIterBody]
    simp only [if_neg (h s.params)]
    obtain ⟨hp, hs⟩ := ih (i + 1)
      { params := env.optStep s.params, ppo_step := (i : ℤ), kl := klEstimate env s.params,
        loss := iterLoss cfg env (env.evalFn s.params) }
    refine ⟨?_, ?_⟩
    · rw [hp, ← Function.iterate_succ_apply]
    · rw [hs]
      by_cases hf : f = 0
      · subst hf; simp
      · rw [if_neg hf, if_neg (Nat.succ_ne_zero f)]
        push_cast
        ring

/-! ### Claim theorems -/

/-- C1: the claim says that when the masked-mean KL estimate exceeds
`target_kl` on PPO iteration 0, `train_on_data` reports
`"{agent_id}/ppo_steps_made" = 0`.  On the code this fails: the `for`
target `ppo_step` is already `0` when the `break` fires, so line 200
reports `ppo_step + 1 = 1`.  Concretely: `evalQ` on `batchQ` has KL
estimate `1 > target_kl = 1/100` at iteration 0, yet the reported
metric is `1`, not `0`. -/
theorem C1_kl_early_stop_reports_one :
    cfgQ.target_kl < klEstimate envQ 0 ∧
    ppo_steps_made (train_on_data_agent cfgQ powQ sqrtQ expQ evalQ id [] 0 batchQ 0) = 1 := by
  have hkl : klEstimate envQ 0 = 1 := by
    norm_num [klEstimate, envQ, mkEnv, evalQ, batchQ, maskFor, masked_mean, cfgQ]
  constructor
  · rw [hkl]; norm_num [cfgQ]
  · have hec : entropy_coeff_of powQ cfgQ.entropy_coeff cfgQ.entropy_decay_time
        cfgQ.min_entropy 0 = 1 / 10 := by
      norm_num [entropy_coeff_of, powQ, cfgQ]
    rw [train_on_data_agent]
    simp only [hec]
    have henv : mkEnv cfgQ sqrtQ expQ evalQ id [] (1 / 10) 0 batchQ = envQ := rfl
    rw [henv, trainLoop]
    rw [ppoRun_break cfgQ envQ 0 cfgQ.ppo_steps _ (by norm_num [cfgQ]) (by rw [hkl]; norm_num [cfgQ])]
    simp [ppo_steps_made]

/-- C2: whenever the KL check fails at the parameters the loop currently
holds, the loop exits without backpropagating that iteration's loss or
applying an optimizer step, so the parameters it returns are the ones
it entered the iteration with; in particular a failure at iteration 0
leaves the parameters of the whole `train_on_data` call untouched. -/
theorem C2_kl_early_stop_preserves_params {P α : Type} [LinearOrderedField α]
    (cfg : PPOConfig α) (env : IterEnv P α) (p0 : P)
    (h : cfg.target_kl < klEstimate env p0) :
    (trainLoop cfg env p0).params = p0 ∧
    ∀ (i fuel : ℕ) (s : LoopState P α),
      cfg.target_kl < klEstimate env s.params →
      (ppoRun cfg env i fuel s).params = s.params := by
  have key : ∀ (i fuel : ℕ) (s : LoopState P α),
      cfg.target_kl < klEstimate env s.params →
      (ppoRun cfg env i fuel s).params = s.params := by
    intro i fuel s hs
    cases fuel with
    | zero => rfl
    | succ f => rw [ppoRun_break cfg env i (f + 1) s (Nat.succ_pos f) hs]
  exact ⟨key 0 cfg.ppo_steps _ h, key⟩

/-- Witness for C2 at the concrete setup: the KL estimate `1` exceeds
`target_kl = 1/100` at iteration 0 and the parameters are unchanged. -/
theorem C2_witness :
    cfgQ.target_kl < klEstimate envQ 0 ∧
    ((trainLoop cfgQ envQ 0).params = 0 ∧
     ∀ (i fuel : ℕ) (s : LoopState ℚ ℚ),
       cfgQ.target_kl < klEstimate envQ s.params →
       (ppoRun cfgQ envQ i fuel s).params = s.params) := by
  have h : cfgQ.target_kl < klEstimate envQ 0 := by
    norm_num [klEstimate, envQ, mkEnv, evalQ, batchQ, maskFor, masked_mean, cfgQ]
  exact ⟨h, C2_kl_early_stop_preserves_params cfgQ envQ 0 h⟩

/-- C7: when the KL estimate never exceeds `target_kl` (at any
parameters, hence on every iteration of the run), the loop performs all
`ppo_steps` iterations, applies exactly one optimizer step per
iteration, and line 200 reports `ppo_steps_made = ppo_steps`. -/
theorem C7_full_run_makes_ppo_steps {P α : Type} [LinearOrderedField α]
    (cfg : PPOConfig α) (env : IterEnv P α) (p0 : P)
    (h : ∀ p, klEstimate env p ≤ cfg.target_kl) :
    ppo_steps_made (trainLoop cfg env p0) = cfg.ppo_steps ∧
    (trainLoop cfg env p0).params = env.optStep^[cfg.ppo_steps] p0 := by
  have h' : ∀ p, ¬ cfg.target_kl < klEstimate env p := fun p => not_lt.mpr (h p)
  obtain ⟨hp, hs⟩ := ppoRun_no_break cfg env h' cfg.ppo_steps 0
    { params := p0, ppo_step := -1, kl := 0, loss := 0 }
  rw [trainLoop, ppo_steps_made]
  refine ⟨?_, hp⟩
  rw [hs]
  by_cases h0 : cfg.ppo_steps = 0
  · rw [h0]; simp
  · rw [if_neg h0]; push_cast; ring

/-- Witness for C7: a constant agent whose new log-probabilities equal
the stored ones has KL estimate `0 ≤ target_kl`, so all 25 default
iterations run. -/
theorem C7_witness :
    (∀ p, klEstimate envQ0 p ≤ cfgQ.target_kl) ∧
    (ppo_steps_made (trainLoop cfgQ envQ0 0) = cfgQ.ppo_steps ∧
     (trainLoop cfgQ envQ0 0).params = envQ0.optStep^[cfgQ.ppo_steps] 0) := by
  have h : ∀ p, klEstimate envQ0 p ≤ cfgQ.target_kl := by
    intro p
    norm_num [klEstimate, envQ0, mkEnv, evalQ, batchQ0, maskFor, masked_mean, cfgQ]
  exact ⟨h, C7_full_run_makes_ppo_steps cfgQ envQ0 0 h⟩

/-- C10: line 124 unpacks `agent.evaluate_actions(...)` into three names
and line 156 into four; an agent whose `evaluate_actions` returns a
tuple of one fixed arity cannot satisfy both, so every call with
`ppo_steps >= 1` raises a tuple-unpacking error at one of the two call
sites. -/
theorem C10_arity_mismatch (arity ppo_steps : ℕ) (h : 1 ≤ ppo_steps) :
    isError (evaluate_actions_call_sites arity ppo_steps) = true := by
  unfold evaluate_actions_call_sites unpackTuple
  by_cases h3 : arity = 3
  · subst h3
    simp [isError, h, Bind.bind, Except.bind]
  · simp [isError, h3, Bind.bind, Except.bind]

/-- Witness for C10 at arity 3 (the pre-loop unpack succeeds, the
in-loop one raises) with the default 25 PPO steps. -/
theorem C10_witness :
    1 ≤ 25 ∧ isError (evaluate_actions_call_sites 3 25) = true :=
  ⟨by norm_num, C10_arity_mismatch 3 25 (by norm_num)⟩

/-- C3: the claim says every key `train_on_data` reads resolves to a
documented default when the caller omits it.  On the code this fails:
`use_sm` (read at line 182) and `sm_coeff` (line 184) are absent from
`default_config`, so with an empty user config the subscript
`self.config["use_sm"]` has no value to resolve to and raises
`KeyError` on the first iteration that passes the KL check. -/
theorem C3_use_sm_has_no_default :
    "use_sm" ∈ train_on_data_keys_read ∧
    "sm_coeff" ∈ train_on_data_keys_read ∧
    with_default_config [] default_config "use_sm" = Option.none ∧
    with_default_config [] default_config "sm_coeff" = Option.none ∧
    with_default_config [] default_config "target_kl" = Option.some (.num (1 / 100)) := by
  refine ⟨by simp [train_on_data_keys_read], by simp [train_on_data_keys_read], ?_, ?_, ?_⟩
  · rfl
  · rfl
  · rfl

/-- C4: the one-sided clip the code uses (lines 170–174) agrees with the
symmetric ratio-clipping form of the spec (and of the commented-out
line 169) for every advantage, every positive ratio and every clip
parameter strictly between 0 and 1. -/
theorem C4_onesided_clip_equiv {α : Type} [LinearOrderedField α] (eps r a : α)
    (h1 : 0 < eps) (h2 : eps < 1) (h3 : 0 < r) :
    policy_loss_onesided eps r a = policy_loss_symmetric eps r a := by
  unfold policy_loss_onesided policy_loss_symmetric surr2_onesided clamp
  congr 1
  rcases lt_or_le 0 a with ha | ha
  · rw [if_pos ha]
    rcases le_or_lt r (1 + eps) with h5 | h5
    · rw [min_eq_left h5]
      rcases le_or_lt (1 - eps) r with h4 | h4
      · rw [max_eq_right h4, min_self,
          min_eq_left (by nlinarith [mul_nonneg (sub_nonneg.mpr h5) ha.le])]
      · rw [max_eq_left h4.le,
          min_eq_left (by nlinarith [mul_nonneg (sub_nonneg.mpr h5) ha.le]),
          min_eq_left (by nlinarith [mul_nonneg (sub_nonneg.mpr h4.le) ha.le])]
    · rw [min_eq_right h5.le, max_eq_right (by linarith)]
  · rw [if_neg (not_lt.mpr ha)]
    rcases le_or_lt r (1 + eps) with h5 | h5
    · rw [min_eq_left h5]
      rcases le_or_lt (1 - eps) r with h4 | h4
      · rw [max_eq_right h4, min_self,
          min_eq_left (by nlinarith [mul_nonneg (sub_nonneg.mpr h4) (neg_nonneg.mpr ha)])]
      · rw [max_eq_left h4.le]
    · rw [min_eq_right h5.le, max_eq_right (by linarith),
        min_eq_left (by nlinarith [mul_nonneg (sub_nonneg.mpr h5.le) (neg_nonneg.mpr ha)]),
        min_eq_left (by nlinarith [mul_nonneg (by linarith : (0:α) ≤ r - (1 - eps)) (neg_nonneg.mpr ha)])]

/-- Witness for C4 at `eps = 1/10`, `r = 2`, `a = 3` over `ℚ`. -/
theorem C4_witness :
    (0 : ℚ) < 1 / 10 ∧ (1 : ℚ) / 10 < 1 ∧ (0 : ℚ) < 2 ∧
    policy_loss_onesided (1 / 10 : ℚ) 2 3 = policy_loss_symmetric (1 / 10 : ℚ) 2 3 :=
  ⟨by norm_num, by norm_num, by norm_num,
   C4_onesided_clip_equiv (1 / 10 : ℚ) 2 3 (by norm_num) (by norm_num) (by norm_num)⟩

/-- C9: with `pad_sequences = false`, the validity mask built at line 110
(`torch.ones_like(agent_batch['rewards'])`) and threaded through the
whole update by `mkEnv` is all ones and has the shape of the agent's
reward array. -/
theorem C9_unpadded_mask_all_ones {P α : Type} [LinearOrderedField α]
    (cfg : PPOConfig α) (sqrtFn expFn : α → α)
    (evalA : P → AgentDataBatch α → EvalOut α) (optStep : P → P)
    (paddedMask : List α) (ec : α) (p0 : P) (batch : AgentDataBatch α)
    (h : cfg.pad_sequences = false) :
    (mkEnv cfg sqrtFn expFn evalA optStep paddedMask ec p0 batch).mask =
      List.replicate batch.rewards.length 1 ∧
    (mkEnv cfg sqrtFn expFn evalA optStep paddedMask ec p0 batch).mask.length =
      batch.rewards.length ∧
    ∀ x ∈ (mkEnv cfg sqrtFn expFn evalA optStep paddedMask ec p0 batch).mask, x = 1 := by
  refine ⟨by simp [mkEnv, maskFor, h], by simp [mkEnv, maskFor, h], ?_⟩
  intro x hx
  simp only [mkEnv, maskFor, h, if_neg Bool.false_ne_true] at hx
  exact List.eq_of_mem_replicate hx

/-- Witness for C9 at the concrete `ℚ` setup (`cfgQ` has
`pad_sequences = false` and `batchQ` one reward). -/
theorem C9_witness :
    cfgQ.pad_sequences = false ∧
    ((mkEnv cfgQ sqrtQ expQ evalQ id [] (1 / 10) 0 batchQ).mask =
       List.replicate batchQ.rewards.length 1 ∧
     (mkEnv cfgQ sqrtQ expQ evalQ id [] (1 / 10) 0 batchQ).mask.length =
       batchQ.rewards.length ∧
     ∀ x ∈ (mkEnv cfgQ sqrtQ expQ evalQ id [] (1 / 10) 0 batchQ).mask, x = 1) :=
  ⟨rfl, C9_unpadded_mask_all_ones cfgQ sqrtQ expQ evalQ id [] (1 / 10) 0 batchQ rfl⟩

/-- The element-wise policy loss the code assembles from `surr1` and the
one-sided `surr2` (lines 167–174) is `policy_loss_onesided` applied
pointwise to the ratio and the advantage. -/
theorem zipWith_policy_loss {α : Type} [LinearOrderedField α]
    (eps : α) (ratio adv : List α) :
    List.zipWith (fun s1 s2 => -(min s1 s2)) (List.zipWith (· * ·) ratio adv)
      (adv.map (surr2_onesided eps)) =
    List.zipWith (fun r a => policy_loss_onesided eps r a) ratio adv := by
  induction ratio generalizing adv with
  | nil => simp
  | cons x xs ih =>
    cases adv with
    | nil => simp
    | cons y ys => simp [policy_loss_onesided, ih]

/-- C8: on every iteration that passes the KL check, the loop continues
and the total loss it backpropagates equals
`masked_mean(policy_loss) + value_loss_coeff * masked_mean(value_loss)
- entropy_coeff * masked_mean(entropy)`, plus
`sm_coeff * masked_mean(sm_loss)` exactly when skill modeling is
enabled, with the value and skill losses as the spec defines them. -/
theorem C8_iteration_loss {P α : Type} [LinearOrderedField α] (cfg : PPOConfig α)
    (env : IterEnv P α) (i : ℕ) (s : LoopState P α)
    (h : klEstimate env s.params ≤ cfg.target_kl) :
    (ppoIterBody cfg env i s).2 = true ∧
    ((ppoIterBody cfg env i s).1).loss =
      masked_mean
        (List.zipWith (fun r a => policy_loss_onesided cfg.eps r a)
          (List.zipWith (fun n o => env.expFn (n - o))
            (env.evalFn s.params).logprobs env.old_logprobs)
          env.advantages) env.mask
      + cfg.value_loss_coeff *
          masked_mean (spec_value_loss (env.evalFn s.params).values env.discounted) env.mask
      - env.entropy_coeff * masked_mean (env.evalFn s.params).entropy env.mask
      + (if cfg.use_sm then
           cfg.sm_coeff * masked_mean (spec_sm_loss (env.evalFn s.params).sm env.toms) env.mask
         else 0) := by
  rw [ppoIterBody]
  rw [if_neg (not_lt.mpr h)]
  refine ⟨rfl, ?_⟩
  show iterLoss cfg env (env.evalFn s.params) = _
  simp only [iterLoss]
  rw [zipWith_policy_loss]
  cases hsm : cfg.use_sm <;>
    simp [spec_value_loss, spec_sm_loss, hsm]

/-- Witness for C8 at the concrete setup: `envQ0` has KL estimate `0`,
below `target_kl`, so the first iteration passes the check. -/
theorem C8_witness :
    klEstimate envQ0 (0 : ℚ) ≤ cfgQ.target_kl ∧
    ((ppoIterBody cfgQ envQ0 0 { params := 0, ppo_step := -1, kl := 0, loss := 0 }).2 = true ∧
     ((ppoIterBody cfgQ envQ0 0 { params := 0, ppo_step := -1, kl := 0, loss := 0 }).1).loss =
       masked_mean
         (List.zipWith (fun r a => policy_loss_onesided cfgQ.eps r a)
           (List.zipWith (fun n o => envQ0.expFn (n - o))
             (envQ0.evalFn (0 : ℚ)).logprobs envQ0.old_logprobs)
           envQ0.advantages) envQ0.mask
       + cfgQ.value_loss_coeff *
           masked_mean (spec_value_loss (envQ0.evalFn (0 : ℚ)).values envQ0.discounted) envQ0.mask
       - envQ0.entropy_coeff * masked_mean (envQ0.evalFn (0 : ℚ)).entropy envQ0.mask
       + (if cfgQ.use_sm then
            cfgQ.sm_coeff * masked_mean (spec_sm_loss (envQ0.evalFn (0 : ℚ)).sm envQ0.toms) envQ0.mask
          else 0)) := by
  have h : klEstimate envQ0 (0 : ℚ) ≤ cfgQ.target_kl := by
    norm_num [klEstimate, envQ0, mkEnv, evalQ, batchQ0, maskFor, masked_mean, cfgQ]
  exact ⟨h, C8_iteration_loss cfgQ envQ0 0 _ h⟩

/-- Subtracting a constant from the data shifts the masked weighted sum
by the constant times the mask sum (equal lengths). -/
theorem zipWith_mul_map_sub_sum {α : Type} [Field α] (c : α) :
    ∀ (xs m : List α), xs.length = m.length →
      (List.zipWith (· * ·) (xs.map (· - c)) m).sum =
        (List.zipWith (· * ·) xs m).sum - c * m.sum := by
  intro xs
  induction xs with
  | nil =>
    intro m h
    rw [List.eq_nil_of_length_eq_zero h.symm]
    simp
  | cons x xs ih =>
    intro m h
    cases m with
    | nil => simp at h
    | cons y ys =>
      simp only [List.map_cons, List.zipWith_cons_cons, List.sum_cons]
      rw [ih ys (by simpa using h)]
      ring

/-- Dividing the data by a constant divides the masked weighted sum by
it. -/
theorem zipWith_mul_map_div_sum {α : Type} [Field α] (d : α) :
    ∀ (xs m : List α),
      (List.zipWith (· * ·) (xs.map (· / d)) m).sum =
        (List.zipWith (· * ·) xs m).sum / d := by
  intro xs
  induction xs with
  | nil => intro m; simp
  | cons x xs ih =>
    intro m
    cases m with
    | nil => simp
    | cons y ys =>
      simp only [List.map_cons, List.zipWith_cons_cons, List.sum_cons]
      rw [ih ys, div_mul_eq_mul_div, add_div]

/-- `masked_mean` of mean-shifted data (nonzero mask sum, equal lengths). -/
theorem masked_mean_map_sub {α : Type} [Field α] (xs m : List α) (c : α)
    (h : xs.length = m.length) (hm : m.sum ≠ 0) :
    masked_mean (xs.map (· - c)) m = masked_mean xs m - c := by
  rw [masked_mean, masked_mean, zipWith_mul_map_sub_sum c xs m h, sub_div,
    mul_div_assoc, div_self hm, mul_one]

/-- `masked_mean` of data divided by a constant. -/
theorem masked_mean_map_div {α : Type} [Field α] (xs m : List α) (d : α) :
    masked_mean (xs.map (· / d)) m = masked_mean xs m / d := by
  rw [masked_mean, masked_mean, zipWith_mul_map_div_sum, div_right_comm]

/-- C5: for a batch with at least one valid mask position (positive mask
sum), matching lengths and non-degenerate variance of
`discounted_return - value_estimate`, the three-step normalization of
lines 139–141 yields advantages with masked mean exactly `0` and masked
second moment at most `1` and within `2e-8 / (sqrt(variance) + 1e-8)`
of `1` — the tolerance induced by the `1e-8` stabilizer. -/
theorem C5_advantage_normalization (discounted values mask : List ℝ)
    (hlen : (advRaw discounted values).length = mask.length)
    (hm : 0 < mask.sum)
    (h2 : 0 < masked_mean ((advCentered discounted values mask).map (· ^ 2)) mask) :
    masked_mean (advNormalized Real.sqrt discounted values mask) mask = 0 ∧
    masked_mean ((advNormalized Real.sqrt discounted values mask).map (· ^ 2)) mask ≤ 1 ∧
    1 - masked_mean ((advNormalized Real.sqrt discounted values mask).map (· ^ 2)) mask ≤
      2 * (1 / 10 ^ 8) /
        (Real.sqrt (masked_mean ((advCentered discounted values mask).map (· ^ 2)) mask)
          + 1 / 10 ^ 8) := by
  have hmne : mask.sum ≠ 0 := ne_of_gt hm
  have h0 : masked_mean (advCentered discounted values mask) mask = 0 := by
    rw [advCentered, masked_mean_map_sub _ _ _ hlen hmne, sub_self]
  set m2 := masked_mean ((advCentered discounted values mask).map (· ^ 2)) mask with hm2
  set d := Real.sqrt m2 + 1 / 10 ^ 8 with hd_def
  have hs : 0 < Real.sqrt m2 := Real.sqrt_pos.mpr h2
  have hssq : Real.sqrt m2 ^ 2 = m2 := Real.sq_sqrt h2.le
  have hd : 0 < d := by positivity
  have hN : advNormalized Real.sqrt discounted values mask =
      (advCentered discounted values mask).map (· / d) := rfl
  have hsplit : ((advCentered discounted values mask).map (· / d)).map (· ^ 2) =
      ((advCentered discounted values mask).map (· ^ 2)).map (· / d ^ 2) := by
    rw [List.map_map, List.map_map]
    exact List.map_congr_left (fun a _ => div_pow a d 2)
  have hmoment :
      masked_mean ((advNormalized Real.sqrt discounted values mask).map (· ^ 2)) mask =
        m2 / d ^ 2 := by
    rw [hN, hsplit, masked_mean_map_div, hm2]
  refine ⟨?_, ?_, ?_⟩
  · rw [hN, masked_mean_map_div, h0, zero_div]
  · rw [hmoment, div_le_one (by positivity), hd_def]
    nlinarith [hs.le, hssq]
  · rw [hmoment]
    have hrw : 1 - m2 / d ^ 2 = (d ^ 2 - m2) / d ^ 2 := by
      field_simp
    rw [hrw, div_le_div_iff₀ (by positivity) hd, hd_def]
    nlinarith [hs.le, hssq]

/-- Witness for C5 with `discounted = [2, 0]`, `values = [1, 1]` and an
all-ones mask: the raw advantage is `[1, -1]`, already mean-zero with
second moment `1`. -/
theorem C5_witness :
    (advRaw [(2 : ℝ), 0] [1, 1]).length = ([1, 1] : List ℝ).length ∧
    (0 : ℝ) < ([1, 1] : List ℝ).sum ∧
    0 < masked_mean ((advCentered [(2 : ℝ), 0] [1, 1] [1, 1]).map (· ^ 2)) [1, 1] ∧
    (masked_mean (advNormalized Real.sqrt [(2 : ℝ), 0] [1, 1] [1, 1]) [1, 1] = 0 ∧
     masked_mean ((advNormalized Real.sqrt [(2 : ℝ), 0] [1, 1] [1, 1]).map (· ^ 2)) [1, 1] ≤ 1 ∧
     1 - masked_mean ((advNormalized Real.sqrt [(2 : ℝ), 0] [1, 1] [1, 1]).map (· ^ 2)) [1, 1] ≤
       2 * (1 / 10 ^ 8) /
         (Real.sqrt (masked_mean ((advCentered [(2 : ℝ), 0] [1, 1] [1, 1]).map (· ^ 2)) [1, 1])
           + 1 / 10 ^ 8)) := by
  have hlen : (advRaw [(2 : ℝ), 0] [1, 1]).length = ([1, 1] : List ℝ).length := by
    simp [advRaw]
  have hm : (0 : ℝ) < ([1, 1] : List ℝ).sum := by norm_num
  have h2 : 0 < masked_mean ((advCentered [(2 : ℝ), 0] [1, 1] [1, 1]).map (· ^ 2)) [1, 1] := by
    norm_num [advCentered, advRaw, masked_mean]
  exact ⟨hlen, hm, h2, C5_advantage_normalization [(2 : ℝ), 0] [1, 1] [1, 1] hlen hm h2⟩

/-- C6: the per-call entropy coefficient (lines 90–93, with the float
power instantiated as the real power) equals
`max(entropy_coeff * 0.1^(step/entropy_decay_time), min_entropy)`;
it equals the configured base at step 0, is monotonically
non-increasing in the step, and never falls below `min_entropy` — for
any positive decay time and any base at or above the (non-negative)
entropy floor. -/
theorem C6_entropy_coeff_decay (base T mine : ℝ)
    (hT : 0 < T) (hb : 0 ≤ mine) (hmb : mine ≤ base) :
    (∀ s : ℝ, entropy_coeff_of (fun b e : ℝ => b ^ e) base T mine s =
        max (base * (1 / 10 : ℝ) ^ (s / T)) mine) ∧
    entropy_coeff_of (fun b e : ℝ => b ^ e) base T mine 0 = base ∧
    (∀ s s' : ℝ, s ≤ s' →
      entropy_coeff_of (fun b e : ℝ => b ^ e) base T mine s' ≤
        entropy_coeff_of (fun b e : ℝ => b ^ e) base T mine s) ∧
    (∀ s : ℝ, mine ≤ entropy_coeff_of (fun b e : ℝ => b ^ e) base T mine s) := by
  have hb' : (0 : ℝ) ≤ base := hb.trans hmb
  refine ⟨fun s => rfl, ?_, ?_, fun s => le_max_right _ _⟩
  · show max (base * (1 / 10 : ℝ) ^ ((0 : ℝ) / T)) mine = base
    rw [zero_div, Real.rpow_zero, mul_one, max_eq_left hmb]
  · intro s s' hss
    show max (base * (1 / 10 : ℝ) ^ (s' / T)) mine ≤
      max (base * (1 / 10 : ℝ) ^ (s / T)) mine
    refine max_le_max ?_ le_rfl
    refine mul_le_mul_of_nonneg_left ?_ hb'
    exact Real.rpow_le_rpow_of_exponent_ge (by norm_num) (by norm_num)
      ((div_le_div_iff_of_pos_right hT).mpr hss)

/-- Witness for C6 at the default configuration values
(`entropy_coeff = 0.1`, `entropy_decay_time = 100`,
`min_entropy = 0.0001`). -/
theorem C6_witness :
    (0 : ℝ) < 100 ∧ (0 : ℝ) ≤ 1 / 10 ^ 4 ∧ (1 / 10 ^ 4 : ℝ) ≤ 1 / 10 ∧
    ((∀ s : ℝ, entropy_coeff_of (fun b e : ℝ => b ^ e) (1 / 10) 100 (1 / 10 ^ 4) s =
        max ((1 / 10 : ℝ) * (1 / 10 : ℝ) ^ (s / 100)) (1 / 10 ^ 4)) ∧
     entropy_coeff_of (fun b e : ℝ => b ^ e) (1 / 10) 100 (1 / 10 ^ 4) 0 = 1 / 10 ∧
     (∀ s s' : ℝ, s ≤ s' →
       entropy_coeff_of (fun b e : ℝ => b ^ e) (1 / 10) 100 (1 / 10 ^ 4) s' ≤
         entropy_coeff_of (fun b e : ℝ => b ^ e) (1 / 10) 100 (1 / 10 ^ 4) s) ∧
     (∀ s : ℝ, (1 / 10 ^ 4 : ℝ) ≤
         entropy_coeff_of (fun b e : ℝ => b ^ e) (1 / 10) 100 (1 / 10 ^ 4) s)) :=
  ⟨by norm_num, by norm_num, by norm_num,
   C6_entropy_coeff_decay (1 / 10) 100 (1 / 10 ^ 4) (by norm_num) (by norm_num) (by norm_num)⟩

end PPOpt
